import Mathlib

/-!
# Verification of the qltrcs request-dispatch layer

A shallow embedding of the `qltrcs` Qualtrics API client (files
`qltrcs/_util.py` and `qltrcs/api.py`) together with proofs about the
embedded definitions.  The network transport is modelled as a list of
mocked responses consumed in order; blocking sleeps are recorded as
explicit lists of durations; Python exceptions (AssertionError,
AttributeError, KeyError, QualtricsException) are modelled with
`Except`-style error results.
-/

namespace Qltrcs

/-! ## Identifier validation (`_util.py`)

`verify_survey_id` runs `re.match('^SV_[0-9a-zA-Z]{11,15}$', s)` and
`verify_user_id` runs `re.match('^((UR)|(URH))_[0-9a-zA-Z]{11,15}$', s)`.
In Python's `re`, `$` matches at the end of the string *or just before a
newline at the end of the string*, so each pattern also accepts a single
trailing `'\n'` after the alphanumeric body.  The character class
`[0-9a-zA-Z]` is the ASCII alphanumeric set. -/

/-- The regex character class `[0-9a-zA-Z]`. -/
def isAlnumAscii (c : Char) : Bool :=
  (('0' ≤ c && c ≤ '9') || ('a' ≤ c && c ≤ 'z') || ('A' ≤ c && c ≤ 'Z'))

/-- `[0-9a-zA-Z]{11,15}` applied to a whole character list. -/
def alnumBody (cs : List Char) : Bool :=
  cs.all isAlnumAscii && decide (11 ≤ cs.length) && decide (cs.length ≤ 15)

/-- Semantics of `[0-9a-zA-Z]{11,15}$` in Python `re`: either the whole
tail is an 11–15 character alphanumeric body, or the tail ends in a single
`'\n'` and everything before it is such a body (Python's `$` also matches
just before a trailing newline; `'\n'` itself is not in the class, so the
two cases coincide with this conditional). -/
def pyTail (cs : List Char) : Bool :=
  if cs.getLast? = some '\n' then alnumBody cs.dropLast else alnumBody cs

/-- Strip a literal tag (e.g. `SV_`) from the front of a string, as the
anchored regex prefix does; `none` when the tag does not match. -/
def afterTag (tag : List Char) (s : String) : Option (List Char) :=
  if tag.isPrefixOf s.data then some (s.data.drop tag.length) else none

/-- `re.match('^SV_[0-9a-zA-Z]{11,15}$', s)` as a Boolean. -/
def pyMatchSV (s : String) : Bool :=
  match afterTag ['S', 'V', '_'] s with
  | some rest => pyTail rest
  | none => false

/-- `re.match('^((UR)|(URH))_[0-9a-zA-Z]{11,15}$', s)` as a Boolean.
The alternation `(UR)|(URH)` followed by `_` accepts exactly the literal
tags `UR_` and `URH_`, which are mutually exclusive prefixes. -/
def pyMatchUR (s : String) : Bool :=
  match afterTag ['U', 'R', 'H', '_'] s with
  | some rest => pyTail rest
  | none =>
    match afterTag ['U', 'R', '_'] s with
    | some rest => pyTail rest
    | none => false

/-- `_util.verify_survey_id`: returns `True` on a match, raises
`AssertionError` otherwise. -/
def verify_survey_id (s : String) : Except String Bool :=
  if pyMatchSV s then .ok true else .error ("Invalid survey id: " ++ s)

/-- `_util.verify_user_id`: returns `True` on a match, raises
`AssertionError` otherwise. -/
def verify_user_id (s : String) : Except String Bool :=
  if pyMatchUR s then .ok true else .error ("Invalid user id: " ++ s)

/-- The survey-id shape as the spec words it: `SV_` followed by 11–15
alphanumeric characters (nothing else). -/
def specSurveyShape (s : String) : Bool :=
  match afterTag ['S', 'V', '_'] s with
  | some rest => alnumBody rest
  | none => false

/-- The spec's survey-id shape followed by one extra trailing newline. -/
def specSurveyShapeNL (s : String) : Bool :=
  match afterTag ['S', 'V', '_'] s with
  | some rest => (rest.getLast? == some '\n') && alnumBody rest.dropLast
  | none => false

/-- The user-id shape as the spec words it: `UR_` or `URH_` followed by
11–15 alphanumeric characters (nothing else). -/
def specUserShape (s : String) : Bool :=
  match afterTag ['U', 'R', 'H', '_'] s with
  | some rest => alnumBody rest
  | none =>
    match afterTag ['U', 'R', '_'] s with
    | some rest => alnumBody rest
    | none => false

/-- The spec's user-id shape followed by one extra trailing newline. -/
def specUserShapeNL (s : String) : Bool :=
  match afterTag ['U', 'R', 'H', '_'] s with
  | some rest => (rest.getLast? == some '\n') && alnumBody rest.dropLast
  | none =>
    match afterTag ['U', 'R', '_'] s with
    | some rest => (rest.getLast? == some '\n') && alnumBody rest.dropLast
    | none => false

/-! ## Client construction and URL resolution (`api.py`)

`QualtricsAPIAgent.__init__` stores the token under attribute
`api_token` but stores the data center under the misspelled attribute
`data_csenter`.  The `url_prefix` property reads `self.data_center`,
an attribute that is never assigned; Python object attribute access is
modelled with an explicit attribute dictionary, where reading a missing
name raises `AttributeError`. -/

/-- The attribute dictionary created by `QualtricsAPIAgent.__init__`
(after the `None`/environment fallback has produced concrete strings):
`self.api_token = api_token; self.data_csenter = data_center`. -/
def qualtrics_init_attrs (api_token data_center : String) : List (String × String) :=
  [("api_token", api_token), ("data_csenter", data_center)]

/-- Python attribute read: `AttributeError` when the name was never
assigned. -/
def object_getattr (attrs : List (String × String)) (name : String) : Except String String :=
  match attrs.lookup name with
  | some v => .ok v
  | none => .error ("AttributeError: " ++ name)

/-- The `url_prefix` property:
`f"https://{self.data_center}.qualtrics.com/API/v3/"`. -/
def base_url (attrs : List (String × String)) : Except String String :=
  (object_getattr attrs "data_center").map
    (fun dc => "https://" ++ dc ++ ".qualtrics.com/API/v3/")

/-- Python `path.startswith('http')`. -/
def startswith_http (s : String) : Bool := ['h', 't', 't', 'p'].isPrefixOf s.data

/-- URL resolution in `send_api_request`:
`url = path if path.startswith('http') else self.url_prefix + path`. -/
def resolve_url (attrs : List (String × String)) (path : String) : Except String String :=
  if startswith_http path then .ok path
  else (base_url attrs).map (fun p => p ++ path)

/-! ## The dispatcher retry loop (`send_api_request`)

The transport is a list of HTTP status codes, consumed one per request.
The embedding returns the number of transport calls made, the list of
back-off sleep durations (in seconds) in order, and the outcome:
`requests.Response.ok` is `status_code < 400`;  a non-ok response after
the retry checks raises `QualtricsException` (modelled as `.raise`
carrying the final status); an exhausted mock transport is `.exhausted`. -/

/-- Outcome of a dispatch call chain. -/
inductive SendOutcome : Type
  | ok (status : Nat)
  | raise (status : Nat)
  | exhausted
deriving DecidableEq, Repr

/-- Calls made, sleeps performed (seconds, in order), and outcome. -/
structure SendResult : Type where
  calls : Nat
  sleeps : List Nat
  outcome : SendOutcome
deriving DecidableEq, Repr

/-- `send_api_request(path, method, headers, retry, max_retries, delay)`:
the recursive retry structure, with the transport as the list of statuses
of successive responses.  Each recursive retry passes `max_retries` and
`delay` unchanged and `retry + 1`. -/
def send_api_request : List Nat → Nat → Nat → Nat → SendResult
  | [], _, _, _ => ⟨0, [], .exhausted⟩
  | s :: rest, retry, max_retries, delay =>
    if (s = 500 ∨ s = 503 ∨ s = 504) ∧ retry ≤ max_retries then
      let r := send_api_request rest (retry + 1) max_retries delay
      ⟨r.calls + 1, r.sleeps, r.outcome⟩
    else if s = 429 ∧ retry ≤ max_retries then
      let r := send_api_request rest (retry + 1) max_retries delay
      ⟨r.calls + 1, delay * 2 ^ retry :: r.sleeps, r.outcome⟩
    else if ¬ (s < 400) then ⟨1, [], .raise s⟩
    else ⟨1, [], .ok s⟩

/-- The statuses the dispatcher treats as transient. -/
def retryable (s : Nat) : Prop := s = 429 ∨ s = 500 ∨ s = 503 ∨ s = 504

instance (s : Nat) : Decidable (retryable s) := by
  unfold retryable; infer_instance

/-! ## Pagination (`list_users`, `list_surveys`)

A mocked page envelope carries its `result.elements` and the state of its
`result.nextPage` field: `none` when the field is absent, `some none`
when present but null, `some (some url)` when it holds a URL.  The mocked
transport returns the pages of the list in order, one per dispatch call.
Results are `(number of dispatch calls made, Except error elements)`;
`KeyError` from `result['nextPage']` on an absent field is an error. -/

/-- A mocked page envelope. -/
structure Page (α : Type) : Type where
  elements : List α
  nextPage : Option (Option String)
deriving DecidableEq, Repr

/-- `response.json()['result'].get('nextPage')`: absent and null are both
`None`. -/
def getNextPage {α : Type} (p : Page α) : Option String :=
  match p.nextPage with
  | none => none
  | some v => v

/-- The `while nextPage is not None` loop of `list_users`, which reads
the cursor with `.get('nextPage')`.  Arguments: remaining mocked pages,
accumulated elements, current cursor, dispatch calls made so far. -/
def listUsersGo {α : Type} : List (Page α) → List α → Option String → Nat →
    Nat × Except String (List α)
  | _, acc, none, n => (n, .ok acc)
  | [], _, some _, n => (n + 1, .error "transport exhausted")
  | p :: rest, acc, some _, n =>
    listUsersGo rest (acc ++ p.elements) (getNextPage p) (n + 1)

/-- `list_users`: first page via one dispatch, then follow `nextPage`
cursors read with `.get('nextPage')`. -/
def list_users {α : Type} (pages : List (Page α)) : Nat × Except String (List α) :=
  match pages with
  | [] => (1, .error "transport exhausted")
  | p :: rest => listUsersGo rest p.elements (getNextPage p) 1

/-- The `while nextPage is not None` loop of `list_surveys`, which reads
the cursor with `result['nextPage']` and so raises `KeyError` when the
field is absent. -/
def listSurveysGo {α : Type} : List (Page α) → List α → Option String → Nat →
    Nat × Except String (List α)
  | _, acc, none, n => (n, .ok acc)
  | [], _, some _, n => (n + 1, .error "transport exhausted")
  | p :: rest, acc, some _, n =>
    match p.nextPage with
    | none => (n + 1, .error "KeyError: nextPage")
    | some np => listSurveysGo rest (acc ++ p.elements) np (n + 1)

/-- `list_surveys(first_page_only)`: first page via one dispatch, cursor
read with `result['nextPage']`; returns at once when the cursor is null
or `first_page_only` is set, otherwise loops. -/
def list_surveys {α : Type} (first_page_only : Bool) (pages : List (Page α)) :
    Nat × Except String (List α) :=
  match pages with
  | [] => (1, .error "transport exhausted")
  | p :: rest =>
    match p.nextPage with
    | none => (1, .error "KeyError: nextPage")
    | some np =>
      if np.isNone || first_page_only then (1, .ok p.elements)
      else listSurveysGo rest p.elements np 1

/-- A well-formed multi-page collection: every page carries the
`nextPage` field, all but the last hold a URL, and the last is null. -/
def goodChain {α : Type} : List (Page α) → Bool
  | [] => false
  | [p] => p.nextPage == some none
  | p :: q :: rest =>
    (match p.nextPage with
     | some (some _) => true
     | _ => false) && goodChain (q :: rest)

/-! ## Export workflow (`export_survey`)

`export_survey(survey_id, format, filename)` first asserts the format is
in the allowed set, then asserts the survey id, then performs: a kickoff
POST with body `{'format': format}`, a first progress GET, a poll loop
(`sleep(0.5)` then re-GET while `status != 'complete'`), a file download
GET, in-memory unzip with concatenation of the decoded entries in
archive-listing order, and finally either returns the string or writes
it to `filename` (mode `'w'`: text, truncate/overwrite) and returns `1`.

The mocked environment provides the `progressId` of the kickoff
response, the successive progress-check bodies, and the download body as
the decoded contents of the ZIP archive's entries in listing order. -/

/-- One dispatcher call made by `export_survey`, with its path; the
kickoff call also records the JSON body `{'format': format}`. -/
inductive ApiCall : Type
  | kickoff (path : String) (format : String)
  | checkProgress (path : String)
  | download (path : String)
deriving DecidableEq, Repr

/-- Body of one progress-check response:
`result.status` and `result.fileId` (absent or present). -/
structure ProgressResp : Type where
  status : String
  fileId : Option String
deriving DecidableEq, Repr

/-- Mocked transport for one export run. -/
structure ExportEnv : Type where
  progressId : String
  progressResponses : List ProgressResp
  zipEntries : List String
deriving DecidableEq, Repr

/-- The Python return value of `export_survey`: the exported string, or
the literal `1` when a filename was given. -/
inductive ExportValue : Type
  | str (s : String)
  | int (n : Nat)
deriving DecidableEq, Repr

instance {ε α : Type} [DecidableEq ε] [DecidableEq α] : DecidableEq (Except ε α) :=
  fun x y => by
    cases x <;> cases y
    case error.error a b => exact decidable_of_iff (a = b) (by simp)
    case error.ok a b => exact isFalse (fun h => by cases h)
    case ok.error a b => exact isFalse (fun h => by cases h)
    case ok.ok a b => exact decidable_of_iff (a = b) (by simp)

/-- Observable behaviour of one `export_survey` call: the dispatch trace,
the poll sleeps (seconds), the file write performed (path, content), and
the result. -/
structure ExportOutcome : Type where
  trace : List ApiCall
  sleeps : List ℚ
  written : Option (String × String)
  result : Except String ExportValue
deriving DecidableEq, Repr

/-- The poll loop: the current progress body and the remaining mocked
bodies; returns the number of progress checks consumed (including the
initial one), the `0.5 s` sleeps performed, and the final body. -/
def pollLoop : ProgressResp → List ProgressResp → Nat × List ℚ × Except String ProgressResp
  | cur, rest =>
    if cur.status = "complete" then (1, [], .ok cur)
    else
      match rest with
      | [] => (2, [(1 : ℚ) / 2], .error "transport exhausted")
      | r :: t =>
        let x := pollLoop r t
        (x.1 + 1, (1 : ℚ) / 2 :: x.2.1, x.2.2)

/-- `out = ''; for s in zip.infolist(): out += zip.read(s).decode('utf-8')`. -/
def unzipConcat (entries : List String) : String :=
  entries.foldl (fun a b => a ++ b) ""

/-- Everything `export_survey` does after its two assertions have
passed, starting with the kickoff POST. -/
def exportRun (exportPath format : String) (filename : Option String)
    (env : ExportEnv) : ExportOutcome :=
  let kick := ApiCall.kickoff exportPath format
  let progressPath := exportPath ++ "/" ++ env.progressId
  match env.progressResponses with
  | [] => ⟨[kick, .checkProgress progressPath], [], none, .error "transport exhausted"⟩
  | r :: rest =>
    let x := pollLoop r rest
    match x.2.2 with
    | .error e =>
      ⟨kick :: List.replicate x.1 (ApiCall.checkProgress progressPath), x.2.1, none, .error e⟩
    | .ok fin =>
      match fin.fileId with
      | none =>
        ⟨kick :: List.replicate x.1 (ApiCall.checkProgress progressPath), x.2.1, none,
          .error "KeyError: fileId"⟩
      | some fid =>
        let tr := kick :: List.replicate x.1 (ApiCall.checkProgress progressPath)
          ++ [ApiCall.download (exportPath ++ "/" ++ fid ++ "/file")]
        let out := unzipConcat env.zipEntries
        match filename with
        | none => ⟨tr, x.2.1, none, .ok (.str out)⟩
        | some fn => ⟨tr, x.2.1, some (fn, out), .ok (.int 1)⟩

/-- The allowed export formats. -/
def export_formats : List String := ["csv", "json", "ndjson", "spss", "tsv", "xml"]

/-- `export_survey`: format assertion, then survey-id assertion (both
local, before any dispatch), then the kickoff/poll/download run. -/
def export_survey (survey_id format : String) (filename : Option String)
    (env : ExportEnv) : ExportOutcome :=
  if format ∈ export_formats then
    if pyMatchSV survey_id then
      exportRun ("/surveys/" ++ survey_id ++ "/export-responses") format filename env
    else ⟨[], [], none, .error ("Invalid survey id: " ++ survey_id)⟩
  else ⟨[], [], none, .error "AssertionError"⟩

/-! ## Identifier-guarded single-request operations

Each wrapper asserts its identifier argument before its (first)
dispatch; the embedding records the number of dispatch calls (`0` when
the assertion fails, before any network request) and the path of the
request sent. -/

/-- `get_survey`: survey-id assertion, then one GET. -/
def get_survey_request (survey_id : String) : Nat × Except String String :=
  if pyMatchSV survey_id then (1, .ok ("/surveys/" ++ survey_id))
  else (0, .error ("Invalid survey id: " ++ survey_id))

/-- `get_user`: user-id assertion, then one GET. -/
def get_user_request (user_id : String) : Nat × Except String String :=
  if pyMatchUR user_id then (1, .ok ("/users/" ++ user_id))
  else (0, .error ("Invalid user id: " ++ user_id))

/-- `get_response_schema`: survey-id assertion, then one GET. -/
def get_response_schema_request (survey_id : String) : Nat × Except String String :=
  if pyMatchSV survey_id then (1, .ok ("/surveys/" ++ survey_id ++ "/response-schema"))
  else (0, .error ("Invalid survey id: " ++ survey_id))

/-- `set_user_api_access`: user-id assertion, then one PUT. -/
def set_user_api_access_request (user_id : String) : Nat × Except String String :=
  if pyMatchUR user_id then (1, .ok ("/users/" ++ user_id))
  else (0, .error ("Invalid user id: " ++ user_id))

/-! ## `get_user` / `get_user_id` (JSON values)

`get_user` returns `response.json()['result']`, a parsed JSON value.
`get_user_id` then calls `.json()` on that value; only `Response`
objects have a `.json()` method, and a parsed JSON body never contains
one, so the call raises `AttributeError`. -/

/-- A parsed JSON value, as returned by `response.json()`. -/
inductive PyVal : Type
  | dict (entries : List (String × PyVal))
  | arr (xs : List PyVal)
  | str (s : String)
  | num (n : Int)
  | bool (b : Bool)
  | null

/-- Python subscript `v[k]`: `KeyError` on a missing key, `TypeError`
when `v` is not a dict. -/
def dictIndex : PyVal → String → Except String PyVal
  | .dict es, k =>
    match es.lookup k with
    | some v => .ok v
    | none => .error ("KeyError: " ++ k)
  | _, _ => .error "TypeError: not subscriptable"

/-- Calling `.json()` on a parsed JSON value: no JSON value has this
attribute (only `requests.Response` objects do). -/
def callJson (_v : PyVal) : Except String PyVal :=
  .error "AttributeError: object has no attribute json"

/-- `get_user(user_id)` with the mocked response body `body`:
user-id assertion, then `response.json()['result']`. -/
def get_user (user_id : String) (body : PyVal) : Except String PyVal :=
  if pyMatchUR user_id then dictIndex body "result"
  else .error ("Invalid user id: " ++ user_id)

/-- `get_user_id(user_id)`:
`response = self.get_user(user_id); return response.json()['result']['id']`,
with Python exception propagation made explicit. -/
def get_user_id (user_id : String) (body : PyVal) : Except String PyVal :=
  match get_user user_id body with
  | .error e => .error e
  | .ok r =>
    match callJson r with
    | .error e => .error e
    | .ok j =>
      match dictIndex j "result" with
      | .error e => .error e
      | .ok res => dictIndex res "id"

/-! ## Lemmas about identifier validation -/

/-- A character list ending in `'\n'` is not all alphanumeric. -/
theorem all_isAlnum_false_of_newline :
    ∀ cs : List Char, cs.getLast? = some '\n' → cs.all isAlnumAscii = false
  | [], h => by cases h
  | [a], h => by
    have ha : a = '\n' := by simpa using h
    subst ha; decide
  | a :: b :: t, h => by
    have ih := all_isAlnum_false_of_newline (b :: t) (by simpa using h)
    simp [List.all_cons, ih]

/-- Hence such a list fails the `[0-9a-zA-Z]{11,15}` body check. -/
theorem alnumBody_false_of_newline (cs : List Char) (h : cs.getLast? = some '\n') :
    alnumBody cs = false := by
  unfold alnumBody
  rw [all_isAlnum_false_of_newline cs h]
  simp

/-- The Python tail semantics split into the two spec-level cases. -/
theorem pyTail_eq (cs : List Char) :
    pyTail cs =
      (alnumBody cs || ((cs.getLast? == some '\n') && alnumBody cs.dropLast)) := by
  unfold pyTail
  by_cases h : cs.getLast? = some '\n'
  · rw [if_pos h, alnumBody_false_of_newline cs h]
    simp [h]
  · rw [if_neg h]
    have hb : (cs.getLast? == some '\n') = false := by
      simpa [beq_iff_eq] using h
    rw [hb]
    simp

/-- The survey-id regex accepts exactly the spec shape or the spec shape
plus one trailing newline. -/
theorem pyMatchSV_eq_spec (s : String) :
    pyMatchSV s = (specSurveyShape s || specSurveyShapeNL s) := by
  unfold pyMatchSV specSurveyShape specSurveyShapeNL
  cases h : afterTag ['S', 'V', '_'] s <;> simp [pyTail_eq]

/-- The user-id regex accepts exactly the spec shape or the spec shape
plus one trailing newline. -/
theorem pyMatchUR_eq_spec (s : String) :
    pyMatchUR s = (specUserShape s || specUserShapeNL s) := by
  unfold pyMatchUR specUserShape specUserShapeNL
  cases h1 : afterTag ['U', 'R', 'H', '_'] s
  · cases h2 : afterTag ['U', 'R', '_'] s <;> simp [pyTail_eq]
  · simp [pyTail_eq]

/-! ## Claim theorems -/

/-- C8 (counterexample): `"SV_00000000000\n"` is not of the shape `SV_`
followed by 11–15 alphanumeric characters, yet `verify_survey_id`
succeeds on it and returns `True`, because Python's `$` also matches
just before a trailing newline.  This refutes "for every string not of
that shape it fails deterministically". -/
theorem C8_counterexample_trailing_newline :
    specSurveyShape "SV_00000000000\x0a" = false ∧
    verify_survey_id "SV_00000000000\x0a" = .ok true ∧
    specUserShape "UR_00000000000\x0a" = false ∧
    verify_user_id "UR_00000000000\x0a" = .ok true := by
  decide

/-- C8 (amended): `verify_survey_id` succeeds (returning `True`) exactly
on strings of the shape `SV_` followed by 11–15 alphanumeric characters,
optionally followed by one trailing newline; `verify_user_id` succeeds
exactly on `UR_`/`URH_` followed by 11–15 alphanumeric characters,
optionally followed by one trailing newline; both fail deterministically
on every other string. -/
theorem C8_amended_verify_exact (s t : String) :
    (verify_survey_id s = .ok true ↔ (specSurveyShape s || specSurveyShapeNL s) = true) ∧
    (verify_user_id t = .ok true ↔ (specUserShape t || specUserShapeNL t) = true) := by
  constructor
  · unfold verify_survey_id
    rw [← pyMatchSV_eq_spec]
    cases hp : pyMatchSV s <;> simp [hp]
  · unfold verify_user_id
    rw [← pyMatchUR_eq_spec]
    cases hp : pyMatchUR t <;> simp [hp]

/-- C1 (code bug): for every constructed client, resolving any path that
does not start with `http` raises `AttributeError` instead of producing
`https://{data_center}.qualtrics.com/API/v3/{path}`: `__init__` stores
the data center under the misspelled attribute `data_csenter`, while the
`url_prefix` property reads the never-assigned `data_center`.  Paths
that already start with `http` are used unchanged, as claimed. -/
theorem C1_base_url_attribute_error (t d path : String)
    (h : startswith_http path = false) :
    resolve_url (qualtrics_init_attrs t d) path =
      .error "AttributeError: data_center" ∧
    (∀ q : String, startswith_http q = true →
      resolve_url (qualtrics_init_attrs t d) q = .ok q) := by
  constructor
  · unfold resolve_url
    rw [h]
    rfl
  · intro q hq
    unfold resolve_url
    rw [hq]
    rfl

/-- C1 witness: a concrete client and the concrete path `/whoami`. -/
theorem C1_base_url_attribute_error_witness :
    startswith_http "/whoami" = false ∧
    (resolve_url (qualtrics_init_attrs "T" "dc1") "/whoami" =
        .error "AttributeError: data_center" ∧
      (∀ q : String, startswith_http q = true →
        resolve_url (qualtrics_init_attrs "T" "dc1") q = .ok q)) :=
  ⟨by decide, C1_base_url_attribute_error "T" "dc1" "/whoami" (by decide)⟩

/-! ## Lemmas about the dispatcher retry loop -/

/-- Unfolding: a 500/503/504 response with attempts remaining retries
immediately, passing `max_retries` and `delay` unchanged. -/
theorem send_cons_transient (s : Nat) (hs : s = 500 ∨ s = 503 ∨ s = 504)
    (rest : List Nat) (r m d : Nat) (hr : r ≤ m) :
    send_api_request (s :: rest) r m d =
      (let x := send_api_request rest (r + 1) m d
       ⟨x.calls + 1, x.sleeps, x.outcome⟩) := by
  conv_lhs => unfold send_api_request
  rw [if_pos ⟨hs, hr⟩]

/-- Unfolding: a 429 response with attempts remaining sleeps
`delay * 2 ^ retry` and retries, passing `max_retries` and `delay`
unchanged. -/
theorem send_cons_429 (rest : List Nat) (r m d : Nat) (hr : r ≤ m) :
    send_api_request (429 :: rest) r m d =
      (let x := send_api_request rest (r + 1) m d
       ⟨x.calls + 1, d * 2 ^ r :: x.sleeps, x.outcome⟩) := by
  conv_lhs => unfold send_api_request
  rw [if_neg (by rintro ⟨h1, -⟩; rcases h1 with h | h | h <;> omega),
    if_pos ⟨rfl, hr⟩]

/-- Unfolding: a success response returns at once. -/
theorem send_cons_ok (s : Nat) (hs : s < 400) (rest : List Nat) (r m d : Nat) :
    send_api_request (s :: rest) r m d = ⟨1, [], .ok s⟩ := by
  unfold send_api_request
  rw [if_neg (by rintro ⟨h1, -⟩; rcases h1 with h | h | h <;> omega),
    if_neg (by rintro ⟨h1, -⟩; omega),
    if_neg (by omega)]

/-- Unfolding: a retryable response with the budget exceeded falls
through to the generic failure path and raises. -/
theorem send_cons_raise (s : Nat) (hs : retryable s) (rest : List Nat)
    (r m d : Nat) (hr : m < r) :
    send_api_request (s :: rest) r m d = ⟨1, [], .raise s⟩ := by
  unfold send_api_request
  rw [if_neg (by rintro ⟨-, h2⟩; omega),
    if_neg (by rintro ⟨-, h2⟩; omega),
    if_pos (by rcases hs with h | h | h | h <;> omega)]

/-- Cons/append step for the exponential back-off schedule. -/
theorem range_map_pow_cons (d r k : Nat) :
    d * 2 ^ r :: (List.range k).map (fun i => d * 2 ^ (r + 1 + i)) =
      (List.range (k + 1)).map (fun i => d * 2 ^ (r + i)) := by
  rw [List.range_succ_eq_map, List.map_cons, List.map_map]
  have h2 : List.map ((fun i => d * 2 ^ (r + i)) ∘ Nat.succ) (List.range k) =
      List.map (fun i => d * 2 ^ (r + 1 + i)) (List.range k) := by
    apply List.map_congr_left
    intro i _
    simp only [Function.comp_apply]
    congr 2
    omega
  rw [h2]
  simp

/-- A transport answering 429 on every attempt: starting at attempt `r`
with `r + k = max_retries + 1`, the chain makes `k + 1` calls, sleeps
the exponential schedule, and raises from the last 429. -/
theorem send_429_all (m d : Nat) :
    ∀ (k r : Nat), r + k = m + 1 →
      send_api_request (List.replicate (k + 1) 429) r m d =
        ⟨k + 1, (List.range k).map (fun i => d * 2 ^ (r + i)), .raise 429⟩ := by
  intro k
  induction k with
  | zero =>
    intro r hr
    simpa using send_cons_raise 429 (Or.inl rfl) [] r m d (by omega)
  | succ k ih =>
    intro r hr
    rw [List.replicate_succ, send_cons_429 _ r m d (by omega), ih (r + 1) (by omega)]
    simp [range_map_pow_cons]

/-- Any transport of `max_retries + 1 - retry + 1` retryable responses is
consumed whole, and the final one is raised: the budget is shared across
both transient classes through the single attempt counter. -/
theorem send_retryable_exhaust (m d : Nat) :
    ∀ (l : List Nat) (s r : Nat), retryable s →
      r + l.length = m + 1 → (∀ x ∈ l, retryable x) →
      ∃ w, send_api_request (l ++ [s]) r m d = ⟨l.length + 1, w, .raise s⟩ := by
  intro l
  induction l with
  | nil =>
    intro s r hs hr _
    simp at hr
    exact ⟨[], by simpa using send_cons_raise s hs [] r m d (by omega)⟩
  | cons x t ih =>
    intro s r hs hr hall
    have hx : retryable x := hall x (by simp)
    have hrm : r ≤ m := by simp at hr; omega
    obtain ⟨w, hw⟩ := ih s (r + 1) hs (by simp at hr ⊢; omega)
      (fun y hy => hall y (by simp [hy]))
    rcases hx with h429 | h5
    · subst h429
      refine ⟨d * 2 ^ r :: w, ?_⟩
      rw [List.cons_append, send_cons_429 _ r m d hrm, hw]
      simp
    · refine ⟨w, ?_⟩
      rw [List.cons_append, send_cons_transient x h5 _ r m d hrm, hw]
      simp

/-- `k` rate-limit responses then a success: `k + 1` calls and the
exponential sleep schedule starting at attempt `r`. -/
theorem send_429_then_ok (m d s : Nat) (hs : s < 400) :
    ∀ (k r : Nat), r + k ≤ m + 1 →
      send_api_request (List.replicate k 429 ++ [s]) r m d =
        ⟨k + 1, (List.range k).map (fun i => d * 2 ^ (r + i)), .ok s⟩ := by
  intro k
  induction k with
  | zero =>
    intro r _
    simpa using send_cons_ok s hs [] r m d
  | succ k ih =>
    intro r hr
    rw [List.replicate_succ, List.cons_append, send_cons_429 _ r m d (by omega),
      ih (r + 1) (by omega)]
    simp [range_map_pow_cons]

/-- `k` server-transient responses then a success: `k + 1` calls and no
sleeping at all. -/
theorem send_transient_then_ok (m d s c : Nat) (hs : s < 400)
    (hc : c = 500 ∨ c = 503 ∨ c = 504) :
    ∀ (k r : Nat), r + k ≤ m + 1 →
      send_api_request (List.replicate k c ++ [s]) r m d = ⟨k + 1, [], .ok s⟩ := by
  intro k
  induction k with
  | zero =>
    intro r _
    simpa using send_cons_ok s hs [] r m d
  | succ k ih =>
    intro r hr
    rw [List.replicate_succ, List.cons_append, send_cons_transient c hc _ r m d (by omega),
      ih (r + 1) (by omega)]

/-- List-level sum of the back-off schedule as a `Finset.range` sum. -/
theorem range_map_sum (f : Nat → Nat) :
    ∀ k, ((List.range k).map f).sum = ∑ i ∈ Finset.range k, f i
  | 0 => by simp
  | k + 1 => by
    rw [List.range_succ, List.map_append, List.sum_append,
      Finset.sum_range_succ, range_map_sum f k]
    simp

/-- C2 (counterexample): with the default `retry = 0`, `max_retries = 5`
and an always-429 transport, the dispatcher makes 7 transport calls —
`max_retries + 2`, not the claimed `max_retries + 1` — before raising the
error built from the last 429 response: the retry condition is
`retry <= max_retries`, so attempts `0..5` all retry and attempt 6 makes
one further call that raises. -/
theorem C2_counterexample_call_count :
    send_api_request (List.replicate 7 429) 0 5 1 =
      ⟨7, [1, 2, 4, 8, 16, 32], .raise 429⟩ ∧ 7 ≠ 5 + 1 := by
  decide

/-- C2 (amended): when every transport response is retryable
(429/500/503/504), a dispatch call with `retry = 0` consumes exactly
`max_retries + 2` responses — one call per attempt `0..max_retries + 1` —
and raises the structured error built from the last response; the same
single attempt counter is consumed by the 429 branch and the
500/503/504 branch alike.  In particular an all-429 transport performs
the full exponential sleep schedule and raises 429. -/
theorem C2_amended_retry_budget (m d : Nat) (l : List Nat) (s : Nat)
    (hl : l.length = m + 1) (hall : ∀ x ∈ l, retryable x) (hs : retryable s) :
    (∃ w, send_api_request (l ++ [s]) 0 m d = ⟨m + 2, w, .raise s⟩) ∧
    send_api_request (List.replicate (m + 2) 429) 0 m d =
      ⟨m + 2, (List.range (m + 1)).map (fun i => d * 2 ^ i), .raise 429⟩ := by
  constructor
  · obtain ⟨w, hw⟩ := send_retryable_exhaust m d l s 0 hs (by omega) hall
    exact ⟨w, by rw [hw, hl]⟩
  · have h := send_429_all m d (m + 1) 0 (by omega)
    simpa using h

/-- C2 witness: six 429 responses then a seventh, with
`max_retries = 5` and `delay = 1`. -/
theorem C2_amended_retry_budget_witness :
    (List.replicate 6 (429 : Nat)).length = 5 + 1 ∧
    (∀ x ∈ List.replicate 6 (429 : Nat), retryable x) ∧ retryable 429 ∧
    ((∃ w, send_api_request (List.replicate 6 (429 : Nat) ++ [429]) 0 5 1 =
        ⟨5 + 2, w, .raise 429⟩) ∧
      send_api_request (List.replicate (5 + 2) 429) 0 5 1 =
        ⟨5 + 2, (List.range (5 + 1)).map (fun i => 1 * 2 ^ i), .raise 429⟩) :=
  ⟨by decide, by decide, by decide,
    C2_amended_retry_budget 5 1 (List.replicate 6 429) 429 (by decide) (by decide)
      (by decide)⟩

/-- C3: with `k < max_retries` responses of 429 followed by a success
status, the dispatch succeeds after `k + 1` calls, the `i`-th retry
sleeps `delay * 2 ^ i` seconds and the total time slept is
`∑ i in 0..k-1, delay * 2 ^ i`; `k` responses of 500/503/504 followed by
a success sleep nothing at all; and every retry passes the original
`max_retries` and `delay` unchanged, advancing only the attempt
counter. -/
theorem C3_backoff_schedule (k m d s : Nat) (hk : k < m) (hs : s < 400) :
    send_api_request (List.replicate k 429 ++ [s]) 0 m d =
      ⟨k + 1, (List.range k).map (fun i => d * 2 ^ i), .ok s⟩ ∧
    (send_api_request (List.replicate k 429 ++ [s]) 0 m d).sleeps.sum =
      ∑ i ∈ Finset.range k, d * 2 ^ i ∧
    send_api_request (List.replicate k 500 ++ [s]) 0 m d = ⟨k + 1, [], .ok s⟩ ∧
    send_api_request (List.replicate k 503 ++ [s]) 0 m d = ⟨k + 1, [], .ok s⟩ ∧
    send_api_request (List.replicate k 504 ++ [s]) 0 m d = ⟨k + 1, [], .ok s⟩ ∧
    (∀ (rest : List Nat) (r : Nat), r ≤ m →
      send_api_request (429 :: rest) r m d =
        (let x := send_api_request rest (r + 1) m d
         ⟨x.calls + 1, d * 2 ^ r :: x.sleeps, x.outcome⟩)) ∧
    (∀ (rest : List Nat) (r c : Nat), (c = 500 ∨ c = 503 ∨ c = 504) → r ≤ m →
      send_api_request (c :: rest) r m d =
        (let x := send_api_request rest (r + 1) m d
         ⟨x.calls + 1, x.sleeps, x.outcome⟩)) := by
  have h429 : send_api_request (List.replicate k 429 ++ [s]) 0 m d =
      ⟨k + 1, (List.range k).map (fun i => d * 2 ^ i), .ok s⟩ := by
    have h := send_429_then_ok m d s hs k 0 (by omega)
    simpa using h
  refine ⟨h429, ?_, ?_, ?_, ?_, ?_, ?_⟩
  · rw [h429]
    exact range_map_sum (fun i => d * 2 ^ i) k
  · exact send_transient_then_ok m d s 500 hs (Or.inl rfl) k 0 (by omega)
  · exact send_transient_then_ok m d s 503 hs (Or.inr (Or.inl rfl)) k 0 (by omega)
  · exact send_transient_then_ok m d s 504 hs (Or.inr (Or.inr rfl)) k 0 (by omega)
  · intro rest r hr
    exact send_cons_429 rest r m d hr
  · intro rest r c hc hr
    exact send_cons_transient c hc rest r m d hr

/-- C3 witness: two 429 responses then a 200, with `max_retries = 5` and
`delay = 10`. -/
theorem C3_backoff_schedule_witness :
    2 < 5 ∧ 200 < 400 ∧
    (send_api_request (List.replicate 2 429 ++ [200]) 0 5 10 =
      ⟨2 + 1, (List.range 2).map (fun i => 10 * 2 ^ i), .ok 200⟩ ∧
    (send_api_request (List.replicate 2 429 ++ [200]) 0 5 10).sleeps.sum =
      ∑ i ∈ Finset.range 2, 10 * 2 ^ i ∧
    send_api_request (List.replicate 2 500 ++ [200]) 0 5 10 = ⟨2 + 1, [], .ok 200⟩ ∧
    send_api_request (List.replicate 2 503 ++ [200]) 0 5 10 = ⟨2 + 1, [], .ok 200⟩ ∧
    send_api_request (List.replicate 2 504 ++ [200]) 0 5 10 = ⟨2 + 1, [], .ok 200⟩ ∧
    (∀ (rest : List Nat) (r : Nat), r ≤ 5 →
      send_api_request (429 :: rest) r 5 10 =
        (let x := send_api_request rest (r + 1) 5 10
         ⟨x.calls + 1, 10 * 2 ^ r :: x.sleeps, x.outcome⟩)) ∧
    (∀ (rest : List Nat) (r c : Nat), (c = 500 ∨ c = 503 ∨ c = 504) → r ≤ 5 →
      send_api_request (c :: rest) r 5 10 =
        (let x := send_api_request rest (r + 1) 5 10
         ⟨x.calls + 1, x.sleeps, x.outcome⟩))) :=
  ⟨by decide, by decide, C3_backoff_schedule 2 5 10 200 (by decide) (by decide)⟩

/-! ## Lemmas about pagination -/

/-- In a good chain every page but the last carries a URL cursor. -/
theorem goodChain_head_url {α : Type} (p q : Page α) (rest : List (Page α))
    (h : goodChain (p :: q :: rest) = true) :
    (∃ u, p.nextPage = some (some u)) ∧ goodChain (q :: rest) = true := by
  simp only [goodChain, Bool.and_eq_true] at h
  obtain ⟨h1, h2⟩ := h
  refine ⟨?_, h2⟩
  cases hnp : p.nextPage with
  | none => rw [hnp] at h1; simp at h1
  | some v =>
    cases v with
    | none => rw [hnp] at h1; simp at h1
    | some w => exact ⟨w, rfl⟩

/-- One step of the `list_users` loop on a URL cursor. -/
theorem listUsersGo_cons {α : Type} (p : Page α) (rest : List (Page α))
    (acc : List α) (u : String) (n : Nat) :
    listUsersGo (p :: rest) acc (some u) n =
      listUsersGo rest (acc ++ p.elements) (getNextPage p) (n + 1) := rfl

/-- One step of the `list_surveys` loop on a URL cursor, when the
consumed page carries the `nextPage` field. -/
theorem listSurveysGo_cons {α : Type} (p : Page α) (rest : List (Page α))
    (acc : List α) (u : String) (n : Nat) (np : Option String)
    (hp : p.nextPage = some np) :
    listSurveysGo (p :: rest) acc (some u) n =
      listSurveysGo rest (acc ++ p.elements) np (n + 1) := by
  have h0 : listSurveysGo (p :: rest) acc (some u) n =
      (match p.nextPage with
       | none => (n + 1, .error "KeyError: nextPage")
       | some np2 => listSurveysGo rest (acc ++ p.elements) np2 (n + 1)) := rfl
  rw [h0, hp]

/-- The `list_users` loop over a good chain accumulates every page's
elements in order, one dispatch per page. -/
theorem listUsersGo_chain {α : Type} :
    ∀ (pages : List (Page α)), goodChain pages = true →
      ∀ (acc : List α) (u : String) (n : Nat),
        listUsersGo pages acc (some u) n =
          (n + pages.length, .ok (acc ++ pages.flatMap Page.elements))
  | [], h => by simp [goodChain] at h
  | [p], h => by
    intro acc u n
    have hp : p.nextPage = some none := by simpa [goodChain] using h
    simp [listUsersGo, getNextPage, hp]
  | p :: q :: rest, h => by
    intro acc u n
    obtain ⟨⟨u', hu'⟩, h2⟩ := goodChain_head_url p q rest h
    have hg : getNextPage p = some u' := by simp [getNextPage, hu']
    rw [listUsersGo_cons, hg,
      listUsersGo_chain (q :: rest) h2 (acc ++ p.elements) u' (n + 1)]
    simp only [Prod.mk.injEq, List.length_cons]
    exact ⟨by omega, by simp [List.append_assoc]⟩

/-- The `list_surveys` loop over a good chain does the same. -/
theorem listSurveysGo_chain {α : Type} :
    ∀ (pages : List (Page α)), goodChain pages = true →
      ∀ (acc : List α) (u : String) (n : Nat),
        listSurveysGo pages acc (some u) n =
          (n + pages.length, .ok (acc ++ pages.flatMap Page.elements))
  | [], h => by simp [goodChain] at h
  | [p], h => by
    intro acc u n
    have hp : p.nextPage = some none := by simpa [goodChain] using h
    simp [listSurveysGo, hp]
  | p :: q :: rest, h => by
    intro acc u n
    obtain ⟨⟨u', hu'⟩, h2⟩ := goodChain_head_url p q rest h
    rw [listSurveysGo_cons p (q :: rest) acc u n (some u') hu',
      listSurveysGo_chain (q :: rest) h2 (acc ++ p.elements) u' (n + 1)]
    simp only [Prod.mk.injEq, List.length_cons]
    exact ⟨by omega, by simp [List.append_assoc]⟩

/-- When every consumed page carries the `nextPage` field, the two
pagination loops agree. -/
theorem listGo_eq_of_present {α : Type} :
    ∀ (pages : List (Page α)), (∀ p ∈ pages, p.nextPage.isSome = true) →
      ∀ (acc : List α) (np : Option String) (n : Nat),
        listUsersGo pages acc np n = listSurveysGo pages acc np n
  | pages, h, acc, none, n => by cases pages <;> simp [listUsersGo, listSurveysGo]
  | [], h, acc, some u, n => by simp [listUsersGo, listSurveysGo]
  | p :: rest, h, acc, some u, n => by
    have hp : p.nextPage.isSome = true := h p (by simp)
    obtain ⟨v, hv⟩ := Option.isSome_iff_exists.mp hp
    have hg : getNextPage p = v := by simp [getNextPage, hv]
    simp only [listUsersGo, listSurveysGo, hv, hg]
    exact listGo_eq_of_present rest (fun q hq => h q (by simp [hq])) (acc ++ p.elements) v (n + 1)

/-- C4: over any sequence of page envelopes that all carry `elements`
and `nextPage` (URLs up to a final null), both listing operations return
the concatenation of all pages' elements in arrival order — no
deduplication, no sorting — with exactly one dispatch call per page; and
whenever the very first page's cursor reads as `None`
(`nextPage` null or absent), exactly one dispatch call is made no matter
what the transport would have served next. -/
theorem C4_pagination_concat {α : Type} (pages : List (Page α)) (p : Page α)
    (rest : List (Page α)) (hchain : goodChain pages = true)
    (hp : getNextPage p = none) :
    list_users pages = (pages.length, .ok (pages.flatMap Page.elements)) ∧
    list_surveys false pages = (pages.length, .ok (pages.flatMap Page.elements)) ∧
    (list_users (p :: rest)).1 = 1 ∧
    (list_surveys false (p :: rest)).1 = 1 := by
  refine ⟨?_, ?_, ?_, ?_⟩
  · match pages, hchain with
    | [q], h =>
      have hq : q.nextPage = some none := by simpa [goodChain] using h
      simp [list_users, listUsersGo, getNextPage, hq]
    | q :: q' :: t, h =>
      obtain ⟨⟨u, hu⟩, h2⟩ := goodChain_head_url q q' t h
      have hg : getNextPage q = some u := by simp [getNextPage, hu]
      simp only [list_users, hg]
      rw [listUsersGo_chain (q' :: t) h2 q.elements u 1]
      simp only [Prod.mk.injEq, List.length_cons]
      exact ⟨by omega, by simp⟩
  · match pages, hchain with
    | [q], h =>
      have hq : q.nextPage = some none := by simpa [goodChain] using h
      simp [list_surveys, hq]
    | q :: q' :: t, h =>
      obtain ⟨⟨u, hu⟩, h2⟩ := goodChain_head_url q q' t h
      simp only [list_surveys, hu, Option.isNone_some, Bool.false_or]
      rw [if_neg (by simp), listSurveysGo_chain (q' :: t) h2 q.elements u 1]
      simp only [Prod.mk.injEq, List.length_cons]
      exact ⟨by omega, by simp⟩
  · simp [list_users, listUsersGo, hp]
  · cases hnp : p.nextPage with
    | none => simp [list_surveys, hnp]
    | some v =>
      have hv : v = none := by simpa [getNextPage, hnp] using hp
      subst hv
      simp [list_surveys, hnp]

/-- C4 witness: the spec's two-page example plus a null-cursor first
page followed by a queued page that is never requested. -/
theorem C4_pagination_concat_witness :
    goodChain [Page.mk [1, 2] (some (some "p2")), Page.mk [3] (some none)] = true ∧
    getNextPage (Page.mk ([7] : List Nat) none) = none ∧
    (list_users [Page.mk [1, 2] (some (some "p2")), Page.mk [3] (some none)] =
      (2, .ok [1, 2, 3]) ∧
    list_surveys false [Page.mk [1, 2] (some (some "p2")), Page.mk [3] (some none)] =
      (2, .ok [1, 2, 3]) ∧
    (list_users [Page.mk ([7] : List Nat) none, Page.mk [8] (some none)]).1 = 1 ∧
    (list_surveys false [Page.mk ([7] : List Nat) none, Page.mk [8] (some none)]).1 = 1) := by
  refine ⟨by decide, by decide, ?_⟩
  have h := C4_pagination_concat
    [Page.mk [1, 2] (some (some "p2")), Page.mk [3] (some none)]
    (Page.mk ([7] : List Nat) none) [Page.mk [8] (some none)]
    (by decide) (by decide)
  simpa using h

/-- C5 (counterexample): on a first page whose result omits `nextPage`
entirely, `list_users` returns its elements while `list_surveys` fails
with a `KeyError` — they neither return the same list nor fail the same
way. -/
theorem C5_counterexample_absent_cursor :
    list_users [Page.mk ([0] : List Nat) none] = (1, .ok [0]) ∧
    list_surveys false [Page.mk ([0] : List Nat) none] =
      (1, .error "KeyError: nextPage") := by
  decide

/-- C5 (amended): `list_users` and `list_surveys` (with
`first_page_only = False`) behave identically on every sequence of page
envelopes in which each page's result carries the `nextPage` field
(possibly null); they differ only when a page omits the field, where
`list_users` treats the absence as end-of-collection and `list_surveys`
raises `KeyError`. -/
theorem C5_amended_pagination_equiv {α : Type} (pages : List (Page α))
    (h : ∀ p ∈ pages, p.nextPage.isSome = true) :
    list_users pages = list_surveys false pages := by
  cases pages with
  | nil => simp [list_users, list_surveys]
  | cons p rest =>
    have hp : p.nextPage.isSome = true := h p (by simp)
    obtain ⟨v, hv⟩ := Option.isSome_iff_exists.mp hp
    have hg : getNextPage p = v := by simp [getNextPage, hv]
    cases v with
    | none => simp [list_users, list_surveys, hv, hg, listUsersGo]
    | some u =>
      simp only [list_users, list_surveys, hv, hg, Option.isNone_some, Bool.false_or]
      rw [if_neg (by simp)]
      exact listGo_eq_of_present rest (fun q hq => h q (by simp [hq]))
        p.elements (some u) 1

/-- C5 witness: a two-page chain with the field always present. -/
theorem C5_amended_pagination_equiv_witness :
    (∀ p ∈ [Page.mk ([1] : List Nat) (some (some "p")), Page.mk [2] (some none)],
      p.nextPage.isSome = true) ∧
    list_users [Page.mk ([1] : List Nat) (some (some "p")), Page.mk [2] (some none)] =
      list_surveys false
        [Page.mk ([1] : List Nat) (some (some "p")), Page.mk [2] (some none)] :=
  ⟨by decide, C5_amended_pagination_equiv
    [Page.mk ([1] : List Nat) (some (some "p")), Page.mk [2] (some none)] (by decide)⟩

/-! ## Lemmas about the export workflow -/

/-- The poll loop stops at once on a `complete` status. -/
theorem pollLoop_complete (cur : ProgressResp) (rest : List ProgressResp)
    (h : cur.status = "complete") : pollLoop cur rest = (1, [], .ok cur) := by
  unfold pollLoop
  rw [if_pos h]

/-- On any other status the loop sleeps `0.5 s` and re-polls. -/
theorem pollLoop_step (cur r : ProgressResp) (t : List ProgressResp)
    (h : ¬ cur.status = "complete") :
    pollLoop cur (r :: t) =
      (let x := pollLoop r t
       (x.1 + 1, (1 : ℚ) / 2 :: x.2.1, x.2.2)) := by
  conv_lhs => unfold pollLoop
  rw [if_neg h]

/-- A run of non-complete bodies followed by a `complete` body: one check
per body and one `0.5 s` sleep before every re-poll. -/
theorem pollLoop_pre_complete (fin : ProgressResp) (hfin : fin.status = "complete") :
    ∀ (pre : List ProgressResp) (cur : ProgressResp), ¬ cur.status = "complete" →
      (∀ r ∈ pre, ¬ r.status = "complete") →
      pollLoop cur (pre ++ [fin]) =
        (pre.length + 2, List.replicate (pre.length + 1) ((1 : ℚ) / 2), .ok fin)
  | [], cur, hc, _ => by
    rw [List.nil_append, pollLoop_step cur fin [] hc, pollLoop_complete fin [] hfin]
    simp
  | r :: t, cur, hc, hall => by
    rw [List.cons_append, pollLoop_step cur r (t ++ [fin]) hc,
      pollLoop_pre_complete fin hfin t r (hall r (by simp))
        (fun y hy => hall y (by simp [hy]))]
    simp [List.replicate_succ]

/-- Complete description of a successful export run: the kickoff, one
progress check per mocked body, the download of the `fileId` named by
the final body, the `0.5 s` sleeps, and the result/write determined by
`filename`. -/
theorem exportRun_success (ep f : String) (fn : Option String) (env : ExportEnv)
    (pre : List ProgressResp) (fid : String)
    (hpr : env.progressResponses = pre ++ [⟨"complete", some fid⟩])
    (hpre : ∀ r ∈ pre, ¬ r.status = "complete") :
    exportRun ep f fn env =
      ⟨ApiCall.kickoff ep f ::
          List.replicate (pre.length + 1)
            (ApiCall.checkProgress (ep ++ "/" ++ env.progressId))
          ++ [ApiCall.download (ep ++ "/" ++ fid ++ "/file")],
        List.replicate pre.length ((1 : ℚ) / 2),
        (match fn with
         | none => none
         | some nm => some (nm, unzipConcat env.zipEntries)),
        (match fn with
         | none => .ok (.str (unzipConcat env.zipEntries))
         | some _ => .ok (.int 1))⟩ := by
  cases pre with
  | nil =>
    simp only [exportRun, hpr, List.nil_append]
    rw [pollLoop_complete ⟨"complete", some fid⟩ [] rfl]
    cases fn <;> simp
  | cons r t =>
    have hr : ¬ r.status = "complete" := hpre r (by simp)
    have hall : ∀ y ∈ t, ¬ y.status = "complete" := fun y hy => hpre y (by simp [hy])
    simp only [exportRun, hpr, List.cons_append]
    rw [pollLoop_pre_complete ⟨"complete", some fid⟩ rfl t r hr hall]
    cases fn <;> simp [List.replicate_succ]

/-- Whatever the transport serves, the first dispatch of a validated
export is the kickoff POST carrying the chosen format. -/
theorem exportRun_trace_head (ep f : String) (fn : Option String) (env : ExportEnv) :
    (exportRun ep f fn env).trace.head? = some (ApiCall.kickoff ep f) := by
  rcases env with ⟨pid, prs, zips⟩
  cases prs with
  | nil => rfl
  | cons r rest =>
    simp only [exportRun]
    cases hx : (pollLoop r rest).2.2 with
    | error e => simp [hx]
    | ok fin =>
      cases hfid : fin.fileId with
      | none => simp [hx, hfid]
      | some fid => cases fn <;> simp [hx, hfid]

/-- C6: an export format outside {csv, json, ndjson, spss, tsv, xml}
raises the validation error with zero dispatch calls, whatever the other
arguments; an identifier failing its pattern likewise stops
`export_survey`, `get_survey`, `get_user`, `get_response_schema` and
`set_user_api_access` before any dispatch (zero calls); with a valid
format and survey id, the first dispatched call is the kickoff POST to
the export endpoint with body `{'format': format}`. -/
theorem C6_validation_before_dispatch (sid bad_sid bad_uid fmt bad_fmt : String)
    (fn : Option String) (env env2 : ExportEnv)
    (hbf : bad_fmt ∉ export_formats) (hbs : pyMatchSV bad_sid = false)
    (hbu : pyMatchUR bad_uid = false)
    (hf : fmt ∈ export_formats) (hs : pyMatchSV sid = true) :
    export_survey sid bad_fmt fn env = ⟨[], [], none, .error "AssertionError"⟩ ∧
    export_survey bad_sid fmt fn env =
      ⟨[], [], none, .error ("Invalid survey id: " ++ bad_sid)⟩ ∧
    get_survey_request bad_sid = (0, .error ("Invalid survey id: " ++ bad_sid)) ∧
    get_user_request bad_uid = (0, .error ("Invalid user id: " ++ bad_uid)) ∧
    get_response_schema_request bad_sid =
      (0, .error ("Invalid survey id: " ++ bad_sid)) ∧
    set_user_api_access_request bad_uid =
      (0, .error ("Invalid user id: " ++ bad_uid)) ∧
    (export_survey sid fmt fn env2).trace.head? =
      some (ApiCall.kickoff ("/surveys/" ++ sid ++ "/export-responses") fmt) := by
  refine ⟨?_, ?_, ?_, ?_, ?_, ?_, ?_⟩
  · simp [export_survey, hbf]
  · simp [export_survey, hf, hbs]
  · simp [get_survey_request, hbs]
  · simp [get_user_request, hbu]
  · simp [get_response_schema_request, hbs]
  · simp [set_user_api_access_request, hbu]
  · simp only [export_survey, hf, hs, if_true, if_pos]
    exact exportRun_trace_head ("/surveys/" ++ sid ++ "/export-responses") fmt fn env2

/-- C6 witness: format `pdf` and identifier `bad` against concrete
environments. -/
theorem C6_validation_before_dispatch_witness :
    ("pdf" : String) ∉ export_formats ∧ pyMatchSV "bad" = false ∧
    pyMatchUR "bad" = false ∧ ("csv" : String) ∈ export_formats ∧
    pyMatchSV "SV_abcdefghijk" = true ∧
    (export_survey "SV_abcdefghijk" "pdf" none ⟨"P", [], []⟩ =
      ⟨[], [], none, .error "AssertionError"⟩ ∧
    export_survey "bad" "csv" none ⟨"P", [], []⟩ =
      ⟨[], [], none, .error ("Invalid survey id: " ++ "bad")⟩ ∧
    get_survey_request "bad" = (0, .error ("Invalid survey id: " ++ "bad")) ∧
    get_user_request "bad" = (0, .error ("Invalid user id: " ++ "bad")) ∧
    get_response_schema_request "bad" = (0, .error ("Invalid survey id: " ++ "bad")) ∧
    set_user_api_access_request "bad" = (0, .error ("Invalid user id: " ++ "bad")) ∧
    (export_survey "SV_abcdefghijk" "csv" none
        ⟨"P", [⟨"complete", some "F"⟩], ["x"]⟩).trace.head? =
      some (ApiCall.kickoff ("/surveys/" ++ "SV_abcdefghijk" ++ "/export-responses") "csv")) :=
  ⟨by decide, by decide, by decide, by decide, by decide,
    C6_validation_before_dispatch "SV_abcdefghijk" "bad" "bad" "csv" "pdf" none
      ⟨"P", [], []⟩ ⟨"P", [⟨"complete", some "F"⟩], ["x"]⟩
      (by decide) (by decide) (by decide) (by decide) (by decide)⟩

/-- C7: on a successful export run (valid format and survey id, progress
bodies that are non-`complete` until a final `complete` carrying a
`fileId`), the returned value is the string obtained by concatenating
the decoded contents of every ZIP-archive entry in archive-listing
order; the dispatch trace is the kickoff, one progress check per
progress body, and the file download; and each re-poll is preceded by
exactly one fixed `0.5 s` sleep. -/
theorem C7_export_poll_unzip (sid fmt fid : String) (pre : List ProgressResp)
    (env : ExportEnv) (hf : fmt ∈ export_formats) (hs : pyMatchSV sid = true)
    (hpr : env.progressResponses = pre ++ [⟨"complete", some fid⟩])
    (hpre : ∀ r ∈ pre, ¬ r.status = "complete") :
    export_survey sid fmt none env =
      ⟨ApiCall.kickoff ("/surveys/" ++ sid ++ "/export-responses") fmt ::
          List.replicate (pre.length + 1)
            (ApiCall.checkProgress
              ("/surveys/" ++ sid ++ "/export-responses" ++ "/" ++ env.progressId))
          ++ [ApiCall.download
              ("/surveys/" ++ sid ++ "/export-responses" ++ "/" ++ fid ++ "/file")],
        List.replicate pre.length ((1 : ℚ) / 2), none,
        .ok (.str (unzipConcat env.zipEntries))⟩ := by
  simp only [export_survey, hf, hs, if_true, if_pos]
  exact exportRun_success ("/surveys/" ++ sid ++ "/export-responses") fmt none env
    pre fid hpr hpre

/-- C7 witness: the spec's example — two `in_progress` bodies, then
`complete` with `fileId = "F"`, and a ZIP with the single entry
`"a,b\n1,2\n"`; the returned string is exactly that entry. -/
theorem C7_export_poll_unzip_witness :
    ("csv" : String) ∈ export_formats ∧ pyMatchSV "SV_abcdefghijk" = true ∧
    ((⟨"P", [⟨"in_progress", none⟩, ⟨"in_progress", none⟩, ⟨"complete", some "F"⟩],
        ["a,b\x0a1,2\x0a"]⟩ : ExportEnv).progressResponses =
      [⟨"in_progress", none⟩, ⟨"in_progress", none⟩] ++ [⟨"complete", some "F"⟩]) ∧
    (∀ r ∈ [(⟨"in_progress", none⟩ : ProgressResp), ⟨"in_progress", none⟩],
      ¬ r.status = "complete") ∧
    export_survey "SV_abcdefghijk" "csv" none
        ⟨"P", [⟨"in_progress", none⟩, ⟨"in_progress", none⟩, ⟨"complete", some "F"⟩],
          ["a,b\x0a1,2\x0a"]⟩ =
      ⟨ApiCall.kickoff ("/surveys/" ++ "SV_abcdefghijk" ++ "/export-responses") "csv" ::
          List.replicate
            (([(⟨"in_progress", none⟩ : ProgressResp), ⟨"in_progress", none⟩]).length + 1)
            (ApiCall.checkProgress
              ("/surveys/" ++ "SV_abcdefghijk" ++ "/export-responses" ++ "/" ++ "P"))
          ++ [ApiCall.download
              ("/surveys/" ++ "SV_abcdefghijk" ++ "/export-responses" ++ "/" ++ "F"
                ++ "/file")],
        List.replicate
          ([(⟨"in_progress", none⟩ : ProgressResp), ⟨"in_progress", none⟩]).length
          ((1 : ℚ) / 2), none,
        .ok (.str (unzipConcat ["a,b\x0a1,2\x0a"]))⟩ ∧
    unzipConcat ["a,b\x0a1,2\x0a"] = "a,b\x0a1,2\x0a" :=
  ⟨by decide, by decide, by decide, by decide,
    C7_export_poll_unzip "SV_abcdefghijk" "csv" "F"
      [⟨"in_progress", none⟩, ⟨"in_progress", none⟩]
      ⟨"P", [⟨"in_progress", none⟩, ⟨"in_progress", none⟩, ⟨"complete", some "F"⟩],
        ["a,b\x0a1,2\x0a"]⟩
      (by decide) (by decide) (by decide) (by decide),
    by decide⟩

/-- C9: on a successful export run with a filename, the concatenated
export string is written to that file (text mode `'w'`, replacing any
previous content) and the function returns the integer `1`; without a
filename nothing is written and the string itself is returned. -/
theorem C9_filename_write (sid fmt fid fn : String) (pre : List ProgressResp)
    (env : ExportEnv) (hf : fmt ∈ export_formats) (hs : pyMatchSV sid = true)
    (hpr : env.progressResponses = pre ++ [⟨"complete", some fid⟩])
    (hpre : ∀ r ∈ pre, ¬ r.status = "complete") :
    (export_survey sid fmt (some fn) env).written =
      some (fn, unzipConcat env.zipEntries) ∧
    (export_survey sid fmt (some fn) env).result = .ok (.int 1) ∧
    (export_survey sid fmt none env).written = none ∧
    (export_survey sid fmt none env).result = .ok (.str (unzipConcat env.zipEntries)) := by
  have hsome : export_survey sid fmt (some fn) env =
      exportRun ("/surveys/" ++ sid ++ "/export-responses") fmt (some fn) env := by
    simp [export_survey, hf, hs]
  have hnone : export_survey sid fmt none env =
      exportRun ("/surveys/" ++ sid ++ "/export-responses") fmt none env := by
    simp [export_survey, hf, hs]
  rw [hsome, hnone,
    exportRun_success ("/surveys/" ++ sid ++ "/export-responses") fmt (some fn) env
      pre fid hpr hpre,
    exportRun_success ("/surveys/" ++ sid ++ "/export-responses") fmt none env
      pre fid hpr hpre]
  exact ⟨rfl, rfl, rfl, rfl⟩

/-- C9 witness: a one-body progress run written to `out.csv`. -/
theorem C9_filename_write_witness :
    ("csv" : String) ∈ export_formats ∧ pyMatchSV "SV_abcdefghijk" = true ∧
    ((⟨"P", [⟨"complete", some "F"⟩], ["x"]⟩ : ExportEnv).progressResponses =
      [] ++ [⟨"complete", some "F"⟩]) ∧
    ((export_survey "SV_abcdefghijk" "csv" (some "out.csv")
        ⟨"P", [⟨"complete", some "F"⟩], ["x"]⟩).written =
      some ("out.csv", unzipConcat ["x"]) ∧
    (export_survey "SV_abcdefghijk" "csv" (some "out.csv")
        ⟨"P", [⟨"complete", some "F"⟩], ["x"]⟩).result = .ok (.int 1) ∧
    (export_survey "SV_abcdefghijk" "csv" none
        ⟨"P", [⟨"complete", some "F"⟩], ["x"]⟩).written = none ∧
    (export_survey "SV_abcdefghijk" "csv" none
        ⟨"P", [⟨"complete", some "F"⟩], ["x"]⟩).result =
      .ok (.str (unzipConcat ["x"]))) :=
  ⟨by decide, by decide, by decide,
    C9_filename_write "SV_abcdefghijk" "csv" "F" "out.csv" []
      ⟨"P", [⟨"complete", some "F"⟩], ["x"]⟩
      (by decide) (by decide) (by decide) (by decide)⟩

/-- C10: `get_user_id` raises for every user id and every parsed
response body: `get_user` already returns the envelope's parsed
`result` dictionary, and calling `.json()` on a parsed JSON value
raises `AttributeError`, so no call can ever produce an id. -/
theorem C10_get_user_id_always_raises (user_id : String) (body : PyVal) :
    ∃ msg, get_user_id user_id body = Except.error msg := by
  cases h : get_user user_id body with
  | error e => exact ⟨e, by unfold get_user_id; rw [h]⟩
  | ok r =>
    exact ⟨"AttributeError: object has no attribute json",
      by unfold get_user_id; rw [h]; rfl⟩

end Qltrcs
